import Mathlib

/-!
Verification development for the BrowserHunter core (shallow embedding).

The Python source under `src/` is embedded as executable Lean definitions:
pure functions become Lean functions, Python exceptions become `Except`
values, the filesystem becomes an explicit association-list state, SQLite
execution becomes an explicit log of issued statements together with a
row-level semantics.  Real numbers produced by Python arithmetic are
modelled exactly over `ℚ` (Python floats are modelled as exact rationals;
none of the verified properties depends on binary rounding).
-/

namespace BrowserHunter

/-! ## TimestampCodec (`src/core/timezone_utils.py`)

A UTC instant is modelled as the rational number of seconds since the Unix
epoch.  `datetime.fromtimestamp(x, tz=timezone.utc)` succeeds exactly when
the resulting year lies in `1 .. 9999`, i.e. when `x` is in
`[-62135596800, 253402300800)`, and raises `ValueError` otherwise; the
source wraps these calls in `try/except (ValueError, OSError)`.  Python has
further exception classes (e.g. `OverflowError`) that such a handler does
NOT catch, so the exception type below carries them as well. -/

/-- Python exception classes relevant to the timestamp code. -/
inductive PyExn where
  | valueError
  | osError
  | overflowError
deriving DecidableEq, Repr

/-- The classes caught by `except (ValueError, OSError)` in
`timezone_utils.py`. -/
def caughtByHandler : PyExn → Bool
  | .valueError => true
  | .osError => true
  | .overflowError => false

/-- Model of `datetime.fromtimestamp(x, tz=timezone.utc)`: the identity on
the representable range of `datetime` (years 1 to 9999), raising
`ValueError` outside it. -/
def pyFromtimestampUtc (x : ℚ) : Except PyExn ℚ :=
  if -62135596800 ≤ x ∧ x < 253402300800 then .ok x else .error .valueError

/-- The Unix epoch sentinel `datetime.fromtimestamp(0, tz=timezone.utc)`,
i.e. instant `0`. -/
def unixEpochSentinel : ℚ := 0

/-- The `try: ... except (ValueError, OSError): return fromtimestamp(0)`
wrapper shared by the three conversion functions.  A caught exception
degrades to the Unix epoch sentinel; an uncaught one propagates. -/
def degradeToSentinel (r : Except PyExn ℚ) : Except PyExn ℚ :=
  match r with
  | .ok v => .ok v
  | .error e => if caughtByHandler e then pyFromtimestampUtc 0 else .error e

/-- Chromium/WebKit epoch offset in seconds (`EPOCH_DIFF`). -/
def EPOCH_DIFF : ℚ := 11644473600

/-- `TimezoneConverter.chrome_timestamp_to_datetime`: microseconds since
1601-01-01; `0` short-circuits to the sentinel outside the `try` block. -/
def chrome_timestamp_to_datetime (t : ℤ) : Except PyExn ℚ :=
  if t = 0 then pyFromtimestampUtc 0
  else degradeToSentinel (pyFromtimestampUtc ((t : ℚ) / 1000000 - EPOCH_DIFF))

/-- `TimezoneConverter.firefox_timestamp_to_datetime`: microseconds since
the Unix epoch. -/
def firefox_timestamp_to_datetime (t : ℤ) : Except PyExn ℚ :=
  if t = 0 then pyFromtimestampUtc 0
  else degradeToSentinel (pyFromtimestampUtc ((t : ℚ) / 1000000))

/-- `TimezoneConverter.unix_timestamp_to_datetime`: seconds since the Unix
epoch.  The Python body is oblivious to whether the argument is `int` or
`float`, so the model takes a rational. -/
def unix_timestamp_to_datetime (x : ℚ) : Except PyExn ℚ :=
  if x = 0 then pyFromtimestampUtc 0
  else degradeToSentinel (pyFromtimestampUtc x)

/-! ## SearchEngine (`src/core/search.py`)

Compiled regex objects and their match semantics are external to the
repository (Python `re`), so they enter the embedding as parameters: a
compilation function `String → Option α` (returning `none` on `re.error`
or any other compilation failure) and a match predicate on the compiled
object.  Everything the source itself computes — the safety gate, the
truncation, the fail-closed dispatch — is embedded concretely. -/

/-- `MAX_REGEX_LENGTH` from `search.py`. -/
def MAX_REGEX_LENGTH : ℕ := 500

/-- The complexity score computed by `validate_regex_pattern`: the number
of occurrences of the four characters counted by the source. -/
def complexity_score (p : String) : ℕ :=
  p.toList.count '(' + p.toList.count '*' + p.toList.count '+' + p.toList.count '|'

/-- `validate_regex_pattern`: reject when longer than 500 characters or
when the complexity score exceeds 50.  (The `nesting_patterns` list in the
source is built but never consulted, so it does not appear here.) -/
def validate_regex_pattern (p : String) : Bool :=
  if p.length > MAX_REGEX_LENGTH then false
  else if complexity_score p > 50 then false
  else true

/-- `safe_regex_compile`, parameterized by the external `re.compile`
(modelled as returning `none` whenever compilation raises). -/
def safe_regex_compile {α : Type} (compile : String → Option α) (p : String) : Option α :=
  if validate_regex_pattern p then compile p else none

/-- The `MAX_TEXT_LENGTH` truncation applied by `safe_regex_search` before
matching. -/
def truncate_subject (s : String) : String :=
  if s.length > 1000000 then s.take 1000000 else s

/-- The record shape seen by keyword filters (`url`, `title`, `domain`,
`notes` rendered with `str()` and joined by single spaces). -/
structure SEntry where
  url : String
  title : String
  domain : String
  notes : String
deriving DecidableEq, Repr

/-- The `search_text` assembled inside `add_keyword_filter`. -/
def searchable_text (e : SEntry) : String :=
  e.url ++ " " ++ e.title ++ " " ++ e.domain ++ " " ++ e.notes

/-- Case-insensitive / case-sensitive substring test (Python `in`). -/
def substrTest (needle haystack : String) : Bool :=
  decide (List.IsInfix needle.toList haystack.toList)

/-- The predicate closure produced by `SearchFilter.add_keyword_filter`,
with the external regex engine supplied as `compile`/`matches`. -/
def add_keyword_filter_pred {α : Type} (compile : String → Option α)
    (runMatch : α → String → Bool) (keyword : String)
    (case_sensitive use_regex : Bool) (e : SEntry) : Bool :=
  let text := searchable_text e
  if use_regex then
    match safe_regex_compile compile keyword with
    | none => false
    | some pat => runMatch pat (truncate_subject text)
  else
    if case_sensitive then substrTest keyword text
    else substrTest keyword.toLower text.toLower

/-- `SearchFilter.apply`: fold each predicate over the surviving list (the
empty filter list returns the input unchanged, as in the source). -/
def apply_filters {α : Type u} (filters : List (α → Bool)) (entries : List α) : List α :=
  if filters.isEmpty then entries
  else filters.foldl (fun acc f => acc.filter f) entries

/-- One recorded call to `add_keyword_filter` made by `QueryParser`
(keyword text plus the `case_sensitive` / `use_regex` arguments). -/
structure KeywordFilterSpec where
  keyword : String
  case_sensitive : Bool
  use_regex : Bool
deriving DecidableEq, Repr

/-- Python `str.strip()` over the character sequence of a string. -/
def pyStrip (l : List Char) : List Char :=
  ((l.dropWhile Char.isWhitespace).reverse.dropWhile Char.isWhitespace).reverse

/-- Character loop of `QueryParser._tokenize`: quote and slash spans are
atomic and mutually exclusive; whitespace outside them separates tokens.
The accumulator holds the current token reversed; tokens are character
sequences (Python strings). -/
def tokenize_go : List Char → List Char → Bool → Bool → List (List Char)
  | [], cur, _, _ => if cur.isEmpty then [] else [cur.reverse]
  | c :: cs, cur, inQuotes, inRegex =>
    if c = '"' ∧ inRegex = false then
      tokenize_go cs (c :: cur) (!inQuotes) inRegex
    else if c = '/' ∧ inQuotes = false then
      tokenize_go cs (c :: cur) inQuotes (!inRegex)
    else if c.isWhitespace ∧ inQuotes = false ∧ inRegex = false then
      (if cur.isEmpty then [] else [cur.reverse]) ++ tokenize_go cs [] inQuotes inRegex
    else
      tokenize_go cs (c :: cur) inQuotes inRegex

/-- `QueryParser._tokenize`. -/
def tokenize_query (q : String) : List (List Char) :=
  tokenize_go q.toList [] false false

/-- The per-token branch of `QueryParser.parse_query`: after `strip()`,
`/pattern/` becomes a regex keyword filter, `"phrase"` a case-sensitive
one, a bare word a case-insensitive one, and the bare operator literals
`AND`, `OR`, `NOT` produce nothing.  `token[1:-1]` is `drop 1` plus
`dropLast`. -/
def token_to_filter (token : List Char) : Option KeywordFilterSpec :=
  let t := pyStrip token
  if t.head? = some '/' ∧ t.getLast? = some '/' then
    some ⟨String.mk ((t.drop 1).dropLast), false, true⟩
  else if t.head? = some '"' ∧ t.getLast? = some '"' then
    some ⟨String.mk ((t.drop 1).dropLast), true, false⟩
  else if t ≠ [] ∧ t ∉ ["AND".toList, "OR".toList, "NOT".toList] then
    some ⟨String.mk t, false, false⟩
  else none

/-- Token-list part of `QueryParser.parse_query`. -/
def parse_tokens (tokens : List (List Char)) : List KeywordFilterSpec :=
  tokens.filterMap token_to_filter

/-- `QueryParser.parse_query`, recording the keyword-filter calls it makes
on the returned `SearchFilter`. -/
def parse_query (q : String) : List KeywordFilterSpec :=
  if pyStrip q.toList = [] then [] else parse_tokens (tokenize_query q)

/-! ## AnalyticsEngine (`src/core/analytics.py`)

Visit times are modelled as rational seconds since the Unix epoch;
`total_seconds()/60` becomes exact division by 60.  Python `set` values
are modelled as duplicate-free lists (insertion keeps the first
occurrence; only membership and cardinality are ever consumed). -/

/-- The slice of `HistoryEntry` consumed by session segmentation. -/
structure AEntry where
  visit_time : ℚ
  domain : String
deriving DecidableEq, Repr

/-- Python `sorted(entries, key=lambda x: x.visit_time)` — a stable sort
by visit time, modelled with the stable insertion sort. -/
def sortEntriesByTime (l : List AEntry) : List AEntry :=
  List.insertionSort (fun a b => a.visit_time ≤ b.visit_time) l

/-- `set.add`. -/
def pySetAdd (ds : List String) (d : String) : List String :=
  if d ∈ ds then ds else ds ++ [d]

/-- In-flight session dictionary of `calculate_session_duration`. -/
structure SessionAcc where
  start : ℚ
  stop : ℚ
  members : List AEntry
  domains : List String
deriving DecidableEq, Repr

/-- Loop body of `calculate_session_duration`: state is (closed sessions,
current session, previous entry). -/
def sessionStep (session_gap_minutes : ℤ) (st : List SessionAcc × SessionAcc × AEntry)
    (e : AEntry) : List SessionAcc × SessionAcc × AEntry :=
  let gap := (e.visit_time - st.2.2.visit_time) / 60
  if gap ≤ (session_gap_minutes : ℚ) then
    (st.1,
     { st.2.1 with stop := e.visit_time,
                   members := st.2.1.members ++ [e],
                   domains := pySetAdd st.2.1.domains e.domain },
     e)
  else
    (st.1 ++ [st.2.1], ⟨e.visit_time, e.visit_time, [e], [e.domain]⟩, e)

/-- Python `round` at a given value: ties go to the even integer. -/
def roundHalfEven (x : ℚ) : ℤ :=
  let f := ⌊x⌋
  let frac := x - f
  if frac < 1 / 2 then f
  else if 1 / 2 < frac then f + 1
  else if f % 2 = 0 then f else f + 1

/-- `round(duration, 2)` over exact rationals. -/
def round2 (x : ℚ) : ℚ := (roundHalfEven (x * 100) : ℚ) / 100

/-- Finished session dictionary (after the duration/count pass). -/
structure SessionOut where
  start : ℚ
  stop : ℚ
  duration_minutes : ℚ
  entry_count : ℕ
  unique_domains : ℕ
  domains : List String
  members : List AEntry
deriving DecidableEq, Repr

/-- The per-session post-processing loop of `calculate_session_duration`. -/
def finalizeSession (s : SessionAcc) : SessionOut :=
  { start := s.start, stop := s.stop,
    duration_minutes := round2 ((s.stop - s.start) / 60),
    entry_count := s.members.length,
    unique_domains := s.domains.length,
    domains := s.domains,
    members := s.members }

/-- `BrowserStatistics.calculate_session_duration`. -/
def calculate_session_duration (entries : List AEntry) (session_gap_minutes : ℤ) :
    List SessionOut :=
  match sortEntriesByTime entries with
  | [] => []
  | e0 :: rest =>
    let init : List SessionAcc × SessionAcc × AEntry :=
      ([], ⟨e0.visit_time, e0.visit_time, [e0], [e0.domain]⟩, e0)
    let res := rest.foldl (sessionStep session_gap_minutes) init
    (res.1 ++ [res.2.1]).map finalizeSession

/-! ## GenericIntrospector (`src/core/parsers/generic_parser.py`)

A SQLite database is modelled as its non-system tables; row values are an
abstract type `α` (no verified property inspects cell contents).  Each
operation returns the list of SQL statements it hands to the engine whose
text embeds caller-influenced identifiers, in execution order, together
with its Python result (`Except` for a raised `ValueError` /
`sqlite3.OperationalError`).  Constant-text statements (the
`sqlite_master` listing behind `get_tables`) carry no caller input and are
omitted from the logs.  `LIKE`-matching of rows and the per-cell UTF-8
decode are external to the verified properties and are left abstract: row
selection is returned unfiltered. -/

/-- One `cursor.execute(text, params)` call. -/
structure SQLExec where
  text : String
  params : List String
deriving DecidableEq, Repr

/-- A table: its name, its column names in order, and its rows. -/
structure SQLTable (α : Type) where
  name : String
  cols : List String
  rows : List α
deriving DecidableEq, Repr

/-- A SQLite database, as exposed by `sqlite_master` (system tables
excluded, as the source filters them out of the allow-list). -/
structure Database (α : Type) where
  tables : List (SQLTable α)
deriving DecidableEq, Repr

/-- `get_tables`: the cached allow-list of table names. -/
def Database.tableNames {α : Type} (db : Database α) : List String :=
  db.tables.map (fun t => t.name)

/-- Resolve a table name inside the database. -/
def Database.findTable {α : Type} (db : Database α) (n : String) : Option (SQLTable α) :=
  db.tables.find? (fun t => t.name == n)

/-- `_validate_table_name`: membership in the allow-list derived from
`sqlite_master`. -/
def validate_table_name {α : Type} (db : Database α) (name : String) : Bool :=
  name ∈ db.tableNames

/-- `get_table_info` / `get_column_names`: validate the table name, then
run `PRAGMA table_info(<name>)`.  Only the column names are retained (the
source wraps them in per-column dictionaries). -/
def get_table_info {α : Type} (db : Database α) (name : String) :
    List SQLExec × Except String (List String) :=
  match db.findTable name with
  | none => ([], .error ("Invalid table name: " ++ name))
  | some t => ([⟨"PRAGMA table_info(" ++ name ++ ")", []⟩], .ok t.cols)

/-- The `SELECT` text built by `get_table_data`: `if limit:` is false for
both `None` and `0`, so only a nonzero limit adds the clamped
`LIMIT/OFFSET` clause. -/
def build_table_data_query (name : String) (limit : Option ℤ) (offset : ℤ) : String :=
  match limit with
  | some l =>
    if l ≠ 0 then
      "SELECT * FROM " ++ name ++ " LIMIT " ++ toString (max 0 l)
        ++ " OFFSET " ++ toString (max 0 offset)
    else "SELECT * FROM " ++ name
  | none => "SELECT * FROM " ++ name

/-- SQLite semantics of the optional clause built above: `LIMIT n OFFSET
m` with `n, m ≥ 0` drops `m` rows then keeps `n`. -/
def sliceRows {α : Type} (rows : List α) (limit : Option ℤ) (offset : ℤ) : List α :=
  match limit with
  | some l =>
    if l ≠ 0 then (rows.drop (max 0 offset).toNat).take (max 0 l).toNat
    else rows
  | none => rows

/-- `get_table_data`: validate, fetch column names (the `PRAGMA`), run the
built `SELECT`. -/
def get_table_data {α : Type} (db : Database α) (name : String)
    (limit : Option ℤ) (offset : ℤ) :
    List SQLExec × Except String (List String × List α) :=
  match db.findTable name with
  | none => ([], .error ("Invalid table name: " ++ name))
  | some t =>
    ([⟨"PRAGMA table_info(" ++ name ++ ")", []⟩,
      ⟨build_table_data_query name limit offset, []⟩],
     .ok (t.cols, sliceRows t.rows limit offset))

/-- `get_row_count`: validate, then `SELECT COUNT(*)`. -/
def get_row_count {α : Type} (db : Database α) (name : String) :
    List SQLExec × Except String ℕ :=
  match db.findTable name with
  | none => ([], .error ("Invalid table name: " ++ name))
  | some t => ([⟨"SELECT COUNT(*) FROM " ++ name, []⟩], .ok t.rows.length)

/-- The query text built by `search_table`: an `OR`-chain of
`<col> LIKE ?` with the table and column names spliced into the text. -/
def build_search_query (name : String) (cols : List String) : String :=
  "SELECT * FROM " ++ name ++ " WHERE "
    ++ String.intercalate " OR " (cols.map (fun c => c ++ " LIKE ?"))

/-- `search_table`.  With `columns=None` the column lookup (which
validates the table name) runs before the query is built; with an
explicit column list the interpolated query is handed to the engine with
no validation at all, and only the post-execution column lookup (or the
engine itself, for an unknown table) can raise. -/
def search_table {α : Type} (db : Database α) (name term : String)
    (columns : Option (List String)) : List SQLExec × Except String (List α) :=
  match columns with
  | none =>
    match db.findTable name with
    | none => ([], .error ("Invalid table name: " ++ name))
    | some t =>
      let pragma : SQLExec := ⟨"PRAGMA table_info(" ++ name ++ ")", []⟩
      let q : SQLExec := ⟨build_search_query name t.cols,
                          t.cols.map (fun _ => "%" ++ term ++ "%")⟩
      ([pragma, q, pragma], .ok t.rows)
  | some cols =>
    let q : SQLExec := ⟨build_search_query name cols,
                        cols.map (fun _ => "%" ++ term ++ "%")⟩
    match db.findTable name with
    | none => ([q], .error ("no such table: " ++ name))
    | some t => ([q, ⟨"PRAGMA table_info(" ++ name ++ ")", []⟩], .ok t.rows)

/-! ## SafeDatabaseAccess (`src/core/parsers/base_parser.py` and
`src/core/models.py`)

The filesystem is an association list from path to byte content (metadata
such as permission bits is not modelled: `chmod` neither opens a file nor
changes content).  Alongside the filesystem we carry the list of paths
every content-changing operation targets (file creation, writing,
deletion), in order — the claim under verification is precisely that the
source path never appears in that list.  The SHA-256 hex digest is an
external primitive and enters as a parameter `hashHex`. -/

/-- File content as bytes. -/
abbrev Content := List ℕ

/-- The filesystem: newest binding of a path is found first. -/
abbrev FSys := List (String × Content)

/-- Read a path. -/
def fsRead (fs : FSys) (p : String) : Option Content :=
  (fs.find? (fun e => e.1 == p)).map (fun e => e.2)

/-- Create or overwrite a path. -/
def fsWrite (fs : FSys) (p : String) (c : Content) : FSys :=
  (p, c) :: fs.eraseP (fun e => e.1 == p)

/-- Delete a path. -/
def fsErase (fs : FSys) (p : String) : FSys :=
  fs.eraseP (fun e => e.1 == p)

/-- `os.path.exists`. -/
def fsHas (fs : FSys) (p : String) : Bool :=
  (fsRead fs p).isSome

/-- `calculate_file_hash` (`models.py`): hash the stream on success, and
on ANY exception return the string `"ERROR: <message>"` — it never
raises. -/
def calculate_file_hash (hashHex : Content → String) (readResult : Except String Content) :
    String :=
  match readResult with
  | .ok content => hashHex content
  | .error e => "ERROR: " ++ e

/-- Shape of a 256-bit hex digest as produced by
`hashlib.sha256().hexdigest()`. -/
def isSha256HexDigest (s : String) : Bool :=
  s.length = 64 && s.toList.all (fun c => c.isDigit || ('a' ≤ c && c ≤ 'f'))

/-- The slice of `BaseParser.__init__` that attaches the content hash.
The surrounding `try/except` would convert a raised exception into a
fatal `ValueError`, but `calculate_file_hash` returns a string on every
path, so construction succeeds unconditionally. -/
def base_parser_attach_hash (hashHex : Content → String)
    (readResult : Except String Content) : Except String String :=
  .ok (calculate_file_hash hashHex readResult)

/-- Filesystem plus the ordered log of paths whose content was created,
overwritten or deleted. -/
abbrev FSLog := FSys × List String

/-- A logged content write. -/
def logWrite (st : FSLog) (p : String) (c : Content) : FSLog :=
  (fsWrite st.1 p c, st.2 ++ [p])

/-- A logged deletion. -/
def logErase (st : FSLog) (p : String) : FSLog :=
  (fsErase st.1 p, st.2 ++ [p])

/-- The WAL/SHM loop body of `_create_temp_copy`: copy the sidecar next to
the temp file when it exists (failure being non-fatal is invisible here
because the model copy always succeeds). -/
def copy_sidecar (st : FSLog) (src tempPath ext : String) : FSLog :=
  match fsRead st.1 (src ++ ext) with
  | some c => logWrite st (tempPath ++ ext) c
  | none => st

/-- `BaseParser._create_temp_copy`: ensure the private temp directory,
atomically create the uniquely named temp file (name supplied here as
`tempPath`, chosen fresh by `tempfile`), stream the source bytes into it,
and copy any sidecars.  The source file itself is only ever opened with
mode `rb`. -/
def create_temp_copy (st : FSLog) (src tempDir tempPath : String) (content : Content) :
    FSLog :=
  let st1 := if fsHas st.1 tempDir then st else logWrite st tempDir []
  let st2 := logWrite st1 tempPath []
  let st3 := logWrite st2 tempPath content
  let st4 := copy_sidecar st3 src tempPath "-wal"
  copy_sidecar st4 src tempPath "-shm"

/-- `if os.path.exists(p): os.unlink(p)`. -/
def eraseIfHas (st : FSLog) (p : String) : FSLog :=
  if fsHas st.1 p then logErase st p else st

/-- `BaseParser.close`: delete the temp copy and, when present, its
sidecar copies (each deletion independently guarded in the source; the
model deletion always succeeds). -/
def close_cleanup (st : FSLog) (tempPath : String) : FSLog :=
  if fsHas st.1 tempPath then
    eraseIfHas (eraseIfHas (logErase st tempPath) (tempPath ++ "-wal")) (tempPath ++ "-shm")
  else st

/-- Result of a full acquire-then-close cycle. -/
structure AccessResult where
  fs : FSys
  writes : List String
  file_hash : String
deriving DecidableEq, Repr

/-- A full `BaseParser` acquire-then-close cycle: construction (existence
check and content hash), `connect` (temp copy; the read-only `sqlite3`
open touches only the copy), then `close`. -/
def acquire_close_cycle (hashHex : Content → String) (fs : FSys)
    (src tempDir tempPath : String) : Except String AccessResult :=
  match fsRead fs src with
  | none => .error "Invalid or unsafe database path"
  | some content =>
    let h := calculate_file_hash hashHex (.ok content)
    let st1 := create_temp_copy (fs, []) src tempDir tempPath content
    let st2 := close_cleanup st1 tempPath
    .ok ⟨st2.1, st2.2, h⟩

/-! ## Concrete evaluation inputs and auxiliary instances -/

instance {ε α : Type} [DecidableEq ε] [DecidableEq α] : DecidableEq (Except ε α)
  | .ok x, .ok y =>
    if h : x = y then .isTrue (by rw [h]) else .isFalse (fun hc => h (Except.ok.inj hc))
  | .ok _, .error _ => .isFalse (fun hc => Except.noConfusion hc)
  | .error _, .ok _ => .isFalse (fun hc => Except.noConfusion hc)
  | .error x, .error y =>
    if h : x = y then .isTrue (by rw [h])
    else .isFalse (fun hc => h (Except.error.inj hc))

/-- The four entries of claim C7, at minutes 0, 10, 45 and 50 (visit
times in seconds), supplied out of order to exercise the sort. -/
def sessionExample : List AEntry :=
  [⟨2700, "c"⟩, ⟨0, "a"⟩, ⟨3000, "d"⟩, ⟨600, "b"⟩]

/-- A small concrete database used to evaluate introspector operations:
one table named `urls` with two columns and three rows. -/
def dbDemo : Database ℕ := ⟨[⟨"urls", ["id", "url"], [10, 20, 30]⟩]⟩

/-! ## Shared lemmas about the timestamp codec -/

theorem except_isOk_ok (v : ℚ) : (Except.ok v : Except PyExn ℚ).isOk = true := rfl

theorem except_isOk_error (e : PyExn) : (Except.error e : Except PyExn ℚ).isOk = false := rfl

theorem pyFrom_zero : pyFromtimestampUtc 0 = .ok 0 := by
  unfold pyFromtimestampUtc
  rw [if_pos]
  constructor <;> norm_num

theorem pyFrom_zero_isOk : (pyFromtimestampUtc 0).isOk = true := by
  rw [pyFrom_zero]; rfl

theorem degrade_pyFrom_isOk (x : ℚ) :
    (degradeToSentinel (pyFromtimestampUtc x)).isOk = true := by
  by_cases hx : (-62135596800 : ℚ) ≤ x ∧ x < 253402300800
  · simp [pyFromtimestampUtc, hx, degradeToSentinel, except_isOk_ok]
  · simp [pyFromtimestampUtc, hx, degradeToSentinel, caughtByHandler, pyFrom_zero,
      except_isOk_ok]

theorem degrade_pyFrom_of_fail (x : ℚ) (h : (pyFromtimestampUtc x).isOk = false) :
    degradeToSentinel (pyFromtimestampUtc x) = .ok 0 := by
  by_cases hx : (-62135596800 : ℚ) ≤ x ∧ x < 253402300800
  · rw [pyFromtimestampUtc, if_pos hx] at h
    simp [except_isOk_ok] at h
  · rw [pyFromtimestampUtc, if_neg hx]
    simpa [degradeToSentinel, caughtByHandler] using pyFrom_zero

/-- Claim C4: for every nonzero Chromium-epoch microsecond integer `t`,
`chrome_timestamp_to_datetime t` equals `unix_timestamp_to_datetime`
applied to `t / 1000000 - 11644473600`, and input `0` maps exactly to the
Unix epoch sentinel. -/
theorem chromium_equals_shifted_unix :
    (∀ t : ℤ, t ≠ 0 →
      chrome_timestamp_to_datetime t =
        unix_timestamp_to_datetime ((t : ℚ) / 1000000 - EPOCH_DIFF)) ∧
    chrome_timestamp_to_datetime 0 = .ok unixEpochSentinel := by
  constructor
  · intro t ht
    unfold chrome_timestamp_to_datetime unix_timestamp_to_datetime
    rw [if_neg ht]
    by_cases hs : (t : ℚ) / 1000000 - EPOCH_DIFF = 0
    · rw [if_pos hs, hs, pyFrom_zero]
      simp [degradeToSentinel]
    · rw [if_neg hs]
  · unfold chrome_timestamp_to_datetime
    rw [if_pos rfl, pyFrom_zero]
    rfl

/-- Witness for C4 at the concrete input `t = 3`. -/
theorem chromium_equals_shifted_unix_witness :
    (3 : ℤ) ≠ 0 ∧
    chrome_timestamp_to_datetime 3 =
      unix_timestamp_to_datetime ((3 : ℚ) / 1000000 - EPOCH_DIFF) :=
  ⟨by decide, chromium_equals_shifted_unix.1 3 (by decide)⟩

/-- Claim C5: the three conversion operations are total — every integer
input yields an `ok` result through the `except (ValueError, OSError)`
handler — and whenever the underlying `fromtimestamp` call fails they
degrade to the Unix epoch sentinel. -/
theorem timestamp_codec_total (t : ℤ) :
    (chrome_timestamp_to_datetime t).isOk = true ∧
    (firefox_timestamp_to_datetime t).isOk = true ∧
    (unix_timestamp_to_datetime (t : ℚ)).isOk = true ∧
    ((pyFromtimestampUtc ((t : ℚ) / 1000000 - EPOCH_DIFF)).isOk = false →
      chrome_timestamp_to_datetime t = .ok unixEpochSentinel) ∧
    ((pyFromtimestampUtc ((t : ℚ) / 1000000)).isOk = false →
      firefox_timestamp_to_datetime t = .ok unixEpochSentinel) ∧
    ((pyFromtimestampUtc (t : ℚ)).isOk = false →
      unix_timestamp_to_datetime (t : ℚ) = .ok unixEpochSentinel) := by
  refine ⟨?_, ?_, ?_, ?_, ?_, ?_⟩
  · unfold chrome_timestamp_to_datetime
    split
    · exact pyFrom_zero_isOk
    · exact degrade_pyFrom_isOk _
  · unfold firefox_timestamp_to_datetime
    split
    · exact pyFrom_zero_isOk
    · exact degrade_pyFrom_isOk _
  · unfold unix_timestamp_to_datetime
    split
    · exact pyFrom_zero_isOk
    · exact degrade_pyFrom_isOk _
  · intro h
    unfold chrome_timestamp_to_datetime
    split
    · next h0 =>
      subst h0
      simp only [Int.cast_zero, zero_div, zero_sub] at h
      rw [pyFromtimestampUtc, if_pos (by unfold EPOCH_DIFF; constructor <;> norm_num)] at h
      simp [except_isOk_ok] at h
    · exact degrade_pyFrom_of_fail _ h
  · intro h
    unfold firefox_timestamp_to_datetime
    split
    · next h0 =>
      subst h0
      simp only [Int.cast_zero, zero_div] at h
      rw [pyFrom_zero] at h
      simp [except_isOk_ok] at h
    · exact degrade_pyFrom_of_fail _ h
  · intro h
    unfold unix_timestamp_to_datetime
    split
    · next h0 =>
      rw [h0, pyFrom_zero] at h
      simp [except_isOk_ok] at h
    · exact degrade_pyFrom_of_fail _ h

/-- Witness for C5 at the concrete input `t = 10^18`, where all three
underlying `fromtimestamp` calls fail and all three conversions degrade
to the sentinel. -/
theorem timestamp_codec_total_witness :
    chrome_timestamp_to_datetime (10 ^ 18) = .ok unixEpochSentinel ∧
    firefox_timestamp_to_datetime (10 ^ 18) = .ok unixEpochSentinel ∧
    unix_timestamp_to_datetime ((10 ^ 18 : ℤ) : ℚ) = .ok unixEpochSentinel :=
  ⟨(timestamp_codec_total (10 ^ 18)).2.2.2.1
      (by norm_num [pyFromtimestampUtc, EPOCH_DIFF, except_isOk_error]),
   (timestamp_codec_total (10 ^ 18)).2.2.2.2.1
      (by norm_num [pyFromtimestampUtc, except_isOk_error]),
   (timestamp_codec_total (10 ^ 18)).2.2.2.2.2
      (by norm_num [pyFromtimestampUtc, except_isOk_error])⟩

/-- Claim C6: the safety gate rejects a user pattern exactly when its
length exceeds 500 or its complexity score exceeds 50 (50 accepted, 51
rejected, shown on 50 and 51 copies of the `(` character), and any pattern
failing validation or failing to compile makes the regex keyword predicate
reject every record. -/
theorem regex_gate_fail_closed {α : Type} (compile : String → Option α)
    (runMatch : α → String → Bool) :
    (∀ p : String, validate_regex_pattern p = false ↔
      (p.length > 500 ∨ complexity_score p > 50)) ∧
    validate_regex_pattern (String.mk (List.replicate 50 '(')) = true ∧
    validate_regex_pattern (String.mk (List.replicate 51 '(')) = false ∧
    (∀ (keyword : String) (cs : Bool) (e : SEntry),
      validate_regex_pattern keyword = false ∨ compile keyword = none →
      add_keyword_filter_pred compile runMatch keyword cs true e = false) := by
  refine ⟨?_, by decide, by decide, ?_⟩
  · intro p
    by_cases h1 : p.length > 500 <;> by_cases h2 : complexity_score p > 50 <;>
      simp [validate_regex_pattern, MAX_REGEX_LENGTH, h1, h2]
  · intro keyword cs e h
    have hnone : safe_regex_compile compile keyword = none := by
      rcases h with hval | hc
      · simp [safe_regex_compile, hval]
      · by_cases hv : validate_regex_pattern keyword <;>
          simp [safe_regex_compile, hv, hc]
    simp [add_keyword_filter_pred, hnone]

/-- Witness for C6: the 51-`(` pattern (score 51) fails validation, so the
regex keyword predicate rejects a concrete record even under a compiler
and matcher that accept everything. -/
theorem regex_gate_fail_closed_witness :
    add_keyword_filter_pred (fun _ => some ()) (fun _ _ => true)
      (String.mk (List.replicate 51 '(')) false true ⟨"u", "t", "d", "n"⟩ = false :=
  (regex_gate_fail_closed (fun _ => some ()) (fun _ _ => true)).2.2.2
    (String.mk (List.replicate 51 '(')) false ⟨"u", "t", "d", "n"⟩
    (Or.inl (by decide))

/-- Claim C8: the sample query produces exactly three keyword filters of
the claimed kinds, and a bare `AND`, `OR` or `NOT` token inserted anywhere
in a token list contributes no filter, so only AND-composition of the
remaining filters ever results. -/
theorem query_parser_three_filters :
    parse_query "\"exact phrase\" /foo.*bar/ plainword" =
      [⟨"exact phrase", true, false⟩, ⟨"foo.*bar", false, true⟩,
       ⟨"plainword", false, false⟩] ∧
    ∀ (ts1 ts2 : List (List Char)) (op : List Char),
      op ∈ ["AND".toList, "OR".toList, "NOT".toList] →
      parse_tokens (ts1 ++ op :: ts2) = parse_tokens (ts1 ++ ts2) := by
  refine ⟨by decide, ?_⟩
  intro ts1 ts2 op hop
  have hnone : token_to_filter op = none := by
    simp only [List.mem_cons, List.not_mem_nil, or_false] at hop
    rcases hop with rfl | rfl | rfl <;> decide
  simp [parse_tokens, List.filterMap_append, List.filterMap_cons, hnone]

/-- Witness for C8: inserting a bare `OR` between two plain tokens leaves
the produced filter list unchanged. -/
theorem query_parser_three_filters_witness :
    parse_tokens (["alpha".toList] ++ "OR".toList :: ["beta".toList])
      = parse_tokens (["alpha".toList] ++ ["beta".toList]) :=
  query_parser_three_filters.2 ["alpha".toList] ["beta".toList] "OR".toList (by decide)

theorem foldl_filter_eq {α : Type u} :
    ∀ (fs : List (α → Bool)) (es : List α),
      fs.foldl (fun acc f => acc.filter f) es
        = es.filter (fun e => fs.all (fun f => f e))
  | [], es => by simp
  | f :: fs, es => by
    rw [List.foldl_cons, foldl_filter_eq fs (es.filter f), List.filter_filter]
    simp [Bool.and_comm]

/-- Claim C9: `SearchFilter.apply` returns exactly the order-preserving
subsequence of entries satisfying every added predicate (AND semantics),
and is therefore idempotent on its own output. -/
theorem apply_filters_and_semantics {α : Type u}
    (filters : List (α → Bool)) (entries : List α) :
    apply_filters filters entries
        = entries.filter (fun e => filters.all (fun f => f e)) ∧
    apply_filters filters (apply_filters filters entries)
        = apply_filters filters entries := by
  have key : ∀ es : List α, apply_filters filters es
      = es.filter (fun e => filters.all (fun f => f e)) := by
    intro es
    unfold apply_filters
    match filters with
    | [] => simp
    | f :: fs => exact foldl_filter_eq (f :: fs) es
  refine ⟨key entries, ?_⟩
  rw [key entries, key (entries.filter (fun e => filters.all (fun f => f e)))]
  simp [List.filter_filter]

theorem round2_zero : round2 0 = 0 := by
  unfold round2 roundHalfEven
  norm_num

/-- Claim C7: session segmentation sorts by visit time and splits exactly
at gaps strictly above the threshold — the 0/10/45/50-minute example with
a 30-minute gap yields two sessions of sizes `[2, 2]`; an empty entry list
yields an empty session list; a single entry yields one zero-duration
session. -/
theorem session_segmentation_spec :
    ((calculate_session_duration sessionExample 30).map
        (fun s => s.entry_count) = [2, 2]) ∧
    (∀ g : ℤ, calculate_session_duration [] g = []) ∧
    (∀ (e : AEntry) (g : ℤ),
      (calculate_session_duration [e] g).map
          (fun s => (s.duration_minutes, s.entry_count)) = [(0, 1)]) := by
  refine ⟨?_, ?_, ?_⟩
  · norm_num [calculate_session_duration, sessionExample, sortEntriesByTime,
      List.insertionSort, List.orderedInsert, sessionStep, pySetAdd, finalizeSession]
  · intro g
    simp [calculate_session_duration, sortEntriesByTime, List.insertionSort]
  · intro e g
    simp [calculate_session_duration, sortEntriesByTime, List.insertionSort,
      List.orderedInsert, finalizeSession, sub_self, zero_div, round2_zero]

/-- Claim C1 (divergence witness): on a database whose only table is
`urls`, the name `evil_tbl` fails allow-list validation and the three
validating operations execute no SQL containing it — yet `search_table`
with an explicit column list hands the engine a query with the
unvalidated table and column names already interpolated. -/
theorem search_table_skips_validation :
    validate_table_name dbDemo "evil_tbl" = false ∧
    (search_table dbDemo "evil_tbl" "x" (some ["c"])).1 =
      [⟨"SELECT * FROM evil_tbl WHERE c LIKE ?", ["%x%"]⟩] ∧
    (search_table dbDemo "evil_tbl" "x" (some ["c"])).2 =
      .error "no such table: evil_tbl" ∧
    get_table_info dbDemo "evil_tbl" = ([], .error "Invalid table name: evil_tbl") ∧
    get_table_data dbDemo "evil_tbl" none 0 =
      ([], .error "Invalid table name: evil_tbl") ∧
    get_row_count dbDemo "evil_tbl" = ([], .error "Invalid table name: evil_tbl") := by
  decide

/-- Claim C3 (divergence witness): when the whole-file read fails during
hashing, `calculate_file_hash` returns the `"ERROR: ..."` placeholder
instead of raising, parser construction succeeds with that placeholder
attached, and the attached value is not a 256-bit hex digest. -/
theorem hash_failure_not_fatal :
    calculate_file_hash (fun _ => "") (.error "read failed") = "ERROR: read failed" ∧
    base_parser_attach_hash (fun _ => "") (.error "read failed") =
      .ok "ERROR: read failed" ∧
    isSha256HexDigest "ERROR: read failed" = false := by
  decide

/-- Claim C10: with a valid table name, `limit = None` and `limit = 0`
both omit the LIMIT/OFFSET clause and return every row (the offset is
ignored), while any nonzero limit is clamped together with the offset and
applied. -/
theorem table_rows_limit_zero_returns_all {α : Type} (db : Database α)
    (name : String) (t : SQLTable α) (offset : ℤ)
    (h : db.findTable name = some t) :
    (get_table_data db name none offset).2 = .ok (t.cols, t.rows) ∧
    (get_table_data db name (some 0) offset).2 = .ok (t.cols, t.rows) ∧
    build_table_data_query name none offset = "SELECT * FROM " ++ name ∧
    build_table_data_query name (some 0) offset = "SELECT * FROM " ++ name ∧
    (∀ l : ℤ, l ≠ 0 →
      (get_table_data db name (some l) offset).2 =
        .ok (t.cols, (t.rows.drop (max 0 offset).toNat).take (max 0 l).toNat)) := by
  refine ⟨?_, ?_, ?_, ?_, ?_⟩
  · simp [get_table_data, h, sliceRows]
  · simp [get_table_data, h, sliceRows]
  · simp [build_table_data_query]
  · simp [build_table_data_query]
  · intro l hl
    simp [get_table_data, h, sliceRows, hl]

/-- Witness for C10 on the concrete demo database: `limit = None` and
`limit = 0` with offset 5 return all three rows; `limit = 2, offset = 1`
returns the second and third rows. -/
theorem table_rows_limit_zero_returns_all_witness :
    (get_table_data dbDemo "urls" none 5).2 = .ok (["id", "url"], [10, 20, 30]) ∧
    (get_table_data dbDemo "urls" (some 0) 5).2 = .ok (["id", "url"], [10, 20, 30]) ∧
    (get_table_data dbDemo "urls" (some 2) 1).2 = .ok (["id", "url"], [20, 30]) := by
  have h := table_rows_limit_zero_returns_all dbDemo "urls"
    ⟨"urls", ["id", "url"], [10, 20, 30]⟩ 5 (by decide)
  exact ⟨h.1, h.2.1, by decide⟩

/-! ## Filesystem lemmas for the acquire-then-close frame property -/

theorem find_eraseP_ne (l : FSys) (p q : String) (h : q ≠ p) :
    (l.eraseP (fun e => e.1 == p)).find? (fun e => e.1 == q)
      = l.find? (fun e => e.1 == q) := by
  induction l with
  | nil => rfl
  | cons a l ih =>
    have hpq : (p == q) = false := by
      simp only [beq_eq_false_iff_ne, ne_eq]
      exact fun hc => h hc.symm
    have hqp : (q == p) = false := by simp [h]
    by_cases hp : a.1 = p
    · simp [List.eraseP_cons, hp, List.find?_cons, hpq]
    · have hp2 : (a.1 == p) = false := by simp [hp]
      by_cases hq : a.1 = q
      · simp [List.eraseP_cons, hp2, List.find?_cons, hq, hqp]
      · have hq2 : (a.1 == q) = false := by simp [hq]
        simp [List.eraseP_cons, hp2, List.find?_cons, hq2, ih]

theorem fsRead_write_ne (fs : FSys) (p q : String) (c : Content) (h : q ≠ p) :
    fsRead (fsWrite fs p c) q = fsRead fs q := by
  unfold fsRead fsWrite
  rw [List.find?_cons]
  have : ((p, c).1 == q) = false := by
    simp only [beq_eq_false_iff_ne, ne_eq]
    exact fun hc => h hc.symm
  rw [this, find_eraseP_ne _ _ _ h]

theorem fsRead_erase_ne (fs : FSys) (p q : String) (h : q ≠ p) :
    fsRead (fsErase fs p) q = fsRead fs q := by
  unfold fsRead fsErase
  rw [find_eraseP_ne _ _ _ h]

theorem copy_sidecar_read (st : FSLog) (src tempPath ext q : String)
    (h : q ≠ tempPath ++ ext) :
    fsRead (copy_sidecar st src tempPath ext).1 q = fsRead st.1 q := by
  unfold copy_sidecar
  cases fsRead st.1 (src ++ ext) <;>
    simp [logWrite, fsRead_write_ne _ _ _ _ h]

theorem copy_sidecar_writes (st : FSLog) (src tempPath ext q : String)
    (hq : q ∉ st.2) (h : q ≠ tempPath ++ ext) :
    q ∉ (copy_sidecar st src tempPath ext).2 := by
  unfold copy_sidecar
  cases fsRead st.1 (src ++ ext) <;> simp [logWrite, hq, h]

theorem create_temp_copy_read (st : FSLog) (src tempDir tempPath q : String)
    (content : Content)
    (h1 : q ≠ tempDir) (h2 : q ≠ tempPath)
    (h3 : q ≠ tempPath ++ "-wal") (h4 : q ≠ tempPath ++ "-shm") :
    fsRead (create_temp_copy st src tempDir tempPath content).1 q = fsRead st.1 q := by
  unfold create_temp_copy
  rw [copy_sidecar_read _ _ _ _ _ h4, copy_sidecar_read _ _ _ _ _ h3]
  split <;>
    simp [logWrite, fsRead_write_ne _ _ _ _ h2, fsRead_write_ne _ _ _ _ h1]

theorem create_temp_copy_writes (st : FSLog) (src tempDir tempPath q : String)
    (content : Content) (hq : q ∉ st.2)
    (h1 : q ≠ tempDir) (h2 : q ≠ tempPath)
    (h3 : q ≠ tempPath ++ "-wal") (h4 : q ≠ tempPath ++ "-shm") :
    q ∉ (create_temp_copy st src tempDir tempPath content).2 := by
  unfold create_temp_copy
  apply copy_sidecar_writes _ _ _ _ _ _ h4
  apply copy_sidecar_writes _ _ _ _ _ _ h3
  split <;> simp [logWrite, hq, h1, h2]

theorem eraseIfHas_read (st : FSLog) (p q : String) (h : q ≠ p) :
    fsRead (eraseIfHas st p).1 q = fsRead st.1 q := by
  unfold eraseIfHas
  split
  · exact fsRead_erase_ne _ _ _ h
  · rfl

theorem eraseIfHas_writes (st : FSLog) (p q : String)
    (hq : q ∉ st.2) (h : q ≠ p) :
    q ∉ (eraseIfHas st p).2 := by
  unfold eraseIfHas
  split
  · simp [logErase, hq, h]
  · exact hq

theorem close_cleanup_read (st : FSLog) (tempPath q : String)
    (h2 : q ≠ tempPath)
    (h3 : q ≠ tempPath ++ "-wal") (h4 : q ≠ tempPath ++ "-shm") :
    fsRead (close_cleanup st tempPath).1 q = fsRead st.1 q := by
  unfold close_cleanup
  split
  · rw [eraseIfHas_read _ _ _ h4, eraseIfHas_read _ _ _ h3]
    exact fsRead_erase_ne _ _ _ h2
  · rfl

theorem close_cleanup_writes (st : FSLog) (tempPath q : String)
    (hq : q ∉ st.2) (h2 : q ≠ tempPath)
    (h3 : q ≠ tempPath ++ "-wal") (h4 : q ≠ tempPath ++ "-shm") :
    q ∉ (close_cleanup st tempPath).2 := by
  unfold close_cleanup
  split
  · exact eraseIfHas_writes _ _ _
      (eraseIfHas_writes _ _ _ (by simp [logErase, hq, h2]) h3) h4
  · exact hq

/-- Claim C2: a full acquire-then-close cycle leaves the source file's
content (hence its digest) unchanged, and the source path is never among
the paths any step creates, writes or deletes — it is only read, for
hashing and for the byte-for-byte copy. -/
theorem acquire_close_preserves_source (hashHex : Content → String) (fs : FSys)
    (src tempDir tempPath : String) (content : Content)
    (hsrc : fsRead fs src = some content)
    (h1 : src ≠ tempDir) (h2 : src ≠ tempPath)
    (h3 : src ≠ tempPath ++ "-wal") (h4 : src ≠ tempPath ++ "-shm") :
    ∃ r : AccessResult,
      acquire_close_cycle hashHex fs src tempDir tempPath = .ok r ∧
      fsRead r.fs src = some content ∧
      src ∉ r.writes ∧
      (fsRead r.fs src).map hashHex = (fsRead fs src).map hashHex := by
  have hread : fsRead (close_cleanup
      (create_temp_copy (fs, []) src tempDir tempPath content) tempPath).1 src
      = fsRead fs src := by
    rw [close_cleanup_read _ _ _ h2 h3 h4,
      create_temp_copy_read _ _ _ _ _ _ h1 h2 h3 h4]
  have hw : src ∉ (close_cleanup
      (create_temp_copy (fs, []) src tempDir tempPath content) tempPath).2 :=
    close_cleanup_writes _ _ _
      (create_temp_copy_writes _ _ _ _ _ _ (by simp) h1 h2 h3 h4) h2 h3 h4
  refine ⟨⟨(close_cleanup (create_temp_copy (fs, []) src tempDir tempPath content)
      tempPath).1,
    (close_cleanup (create_temp_copy (fs, []) src tempDir tempPath content) tempPath).2,
    calculate_file_hash hashHex (.ok content)⟩, ?_, ?_, hw, ?_⟩
  · simp only [acquire_close_cycle, hsrc]
  · simpa [hsrc] using hread
  · simp [hread]

/-- Witness for C2 on a one-file filesystem with concrete temp paths. -/
theorem acquire_close_preserves_source_witness :
    ∃ r : AccessResult,
      acquire_close_cycle (fun _ => "digest") [("evidence.db", [1, 2, 3])]
          "evidence.db" "tmpdir" "tmpdir/bhh_copy.db" = .ok r ∧
      fsRead r.fs "evidence.db" = some [1, 2, 3] ∧
      "evidence.db" ∉ r.writes ∧
      (fsRead r.fs "evidence.db").map (fun _ => "digest")
        = (fsRead [("evidence.db", [1, 2, 3])] "evidence.db").map (fun _ => "digest") :=
  acquire_close_preserves_source (fun _ => "digest") [("evidence.db", [1, 2, 3])]
    "evidence.db" "tmpdir" "tmpdir/bhh_copy.db" [1, 2, 3]
    (by decide) (by decide) (by decide) (by decide) (by decide)

end BrowserHunter
